import Mathlib

/-!
Verification of `SmartJobPortal/static/js/script.js` (client-side page
behavior of the Smart Job Portal).  The script is embedded shallowly:

* strings manipulated by the code (emails, skills, passwords) are
  `List Char`; UI labels and messages are Lean `String` literals;
* each DOM event handler becomes a pure function from its inputs (field
  values, file size, AJAX outcome) to a list of `Effect`s, the observable
  DOM/network actions the handler performs;
* JavaScript numeric quirks that matter (`toFixed(2)` rounding before the
  5 MB comparison, `Math.ceil` of the millisecond difference, `Math.abs`)
  are modelled exactly in `Nat`/`Int` arithmetic.
-/

namespace SmartJobPortal

/-! ## JavaScript string primitives -/

/-- The JavaScript `\s` class (also the set removed by `String.prototype.trim`):
space, tab, line feed, vertical tab, form feed, carriage return, and the
Unicode space separators used by ECMAScript. -/
def jsSpace (c : Char) : Bool :=
  c = ' ' || c = '\t' || c = '\n' || c = '\x0b' || c = '\x0c' || c = '\r' ||
  c = '\u00A0' || c = '\u1680' || (0x2000 ≤ c.toNat && c.toNat ≤ 0x200A) ||
  c = '\u2028' || c = '\u2029' || c = '\u202F' || c = '\u205F' ||
  c = '\u3000' || c = '\uFEFF'

/-- Drop leading JavaScript whitespace. -/
def jsTrimLeft : List Char → List Char
  | [] => []
  | c :: cs => if jsSpace c then jsTrimLeft cs else c :: cs

/-- JavaScript `String.prototype.trim`: strip whitespace from both ends. -/
def jsTrim (s : List Char) : List Char :=
  ((jsTrimLeft ((jsTrimLeft s).reverse)).reverse)

/-- JavaScript `s.replace(pat, '')` with a one-character string pattern:
remove the first occurrence of `pat`, leave the rest untouched. -/
def removeFirstChar (pat : Char) : List Char → List Char
  | [] => []
  | c :: cs => if c = pat then cs else c :: removeFirstChar pat cs

/-! ## Observable effects of the handlers -/

/-- One observable action a handler performs: a notification banner
(`showNotification`), a blocking `alert`, DOM updates, or an outgoing
HTTP request. -/
inductive Effect where
  /-- `showNotification(title, message, type)` banner. -/
  | banner (title message kind : String)
  /-- Blocking `alert(message)`. -/
  | alertBox (message : String)
  /-- `$(this).val('')` on the file input. -/
  | clearInput
  /-- `$(sel).text(text)`. -/
  | setText (target text : String)
  /-- `$(sel).val(value)` on a form field. -/
  | setVal (target value : String)
  /-- `addSkillTag(skill)` invocation. -/
  | addTag (skill : String)
  /-- The `parseResume(file)` AJAX call is issued. -/
  | callParseResume
  /-- `$.get('/api/jobs', { page: n }, ...)`. -/
  | requestJobs (page : Nat)
  /-- `$.get('/api/jobs/autocomplete', { q: query }, ...)`. -/
  | requestAutocomplete
  /-- Load-more button: `prop('disabled', true)`. -/
  | btnDisable
  /-- Load-more button: spinner `html(...)` while loading. -/
  | btnShowLoading
  /-- Load-more button: `prop('disabled', false)`. -/
  | btnEnable
  /-- Load-more button: `.text(label)`. -/
  | btnSetText (label : String)
  /-- Load-more button: `.remove()`. -/
  | btnRemove
  /-- Notification badge: `.text(count).show()`. -/
  | badgeShow (count : Nat)
  /-- Native desktop `new Notification(title, { body })`. -/
  | desktopNotify (body : String)
  deriving DecidableEq, Repr

/-- The banners among a handler's effects (what the user sees in the
notification area). -/
def bannersOf (l : List Effect) : List Effect :=
  l.filter fun e =>
    match e with
    | Effect.banner _ _ _ => true
    | _ => false

/-! ## 4.3 Resume upload (`#resumeUpload` change handler)

```js
const fileSize = (file.size / 1024 / 1024).toFixed(2); // MB
if (fileSize > 5) { alert('File size should be less than 5MB'); $(this).val(''); return; }
$('#resumeFileName').text(fileName + ' (' + fileSize + ' MB)');
parseResume(file);
```

`file.size / 1024 / 1024` is exact in IEEE doubles (two divisions by a
power of two of an integer below 2^53), so `toFixed(2)` rounds the exact
rational `size / 2^20` to two decimals, half away from zero.  In
hundredths of a megabyte that is `⌊(100·size/2^20) + 1/2⌋ =
(25·size + 2^17) / 2^18` in integer division.  The string produced by
`toFixed` is then coerced back to a number by `>`, so the comparison is
`(rounded hundredths) > 500`. -/

/-- `(size / 1024 / 1024).toFixed(2)` as an integer number of hundredths
of a megabyte. -/
def toFixedHundredths (size : Nat) : Nat :=
  (25 * size + 131072) / 262144

/-- Decimal rendering of a hundredths count, matching the `toFixed(2)`
string (e.g. `500 ↦ "5.00"`). -/
def twoDecString (n : Nat) : String :=
  toString (n / 100) ++ "." ++ (if n % 100 < 10 then "0" else "") ++ toString (n % 100)

/-- The `fileSize > 5` test of the handler (string coerced to number). -/
def resumeRejected (size : Nat) : Bool :=
  500 < toFixedHundredths size

/-- The `#resumeUpload` change handler, for a selected file of the given
name and size in bytes. -/
def resumeUpload (fileName : String) (size : Nat) : List Effect :=
  if resumeRejected size then
    [Effect.alertBox "File size should be less than 5MB", Effect.clearInput]
  else
    [Effect.setText "resumeFileName"
        (fileName ++ " (" ++ twoDecString (toFixedHundredths size) ++ " MB)"),
     Effect.callParseResume]

/-! ## 4.1 Email blur validation

```js
const emailRegex = /^[^\s@]+@[^\s@]+\.[^\s@]+$/;
if (email && !emailRegex.test(email)) {
  $(this).addClass('is-invalid');
  $(this).next('.invalid-feedback').text('Please enter a valid email address.');
} else { $(this).removeClass('is-invalid'); }
```
-/

/-- A character admitted by the class `[^\s@]`. -/
def isEmailChar (c : Char) : Bool :=
  !jsSpace c && c != '@'

/-- The language of `/^[^\s@]+@[^\s@]+\.[^\s@]+$/` as a declarative
decomposition: some split `a @ b . c` with `a`, `b`, `c` nonempty strings
of `[^\s@]` characters (the regex engine accepts exactly when such a
split exists). -/
def EmailRe (s : List Char) : Prop :=
  ∃ a b c : List Char,
    s = a ++ '@' :: (b ++ '.' :: c) ∧ a ≠ [] ∧ b ≠ [] ∧ c ≠ [] ∧
    (∀ x ∈ a, isEmailChar x = true) ∧ (∀ x ∈ b, isEmailChar x = true) ∧
    (∀ x ∈ c, isEmailChar x = true)

/-- Split a string at its first `'@'`: `some (a, r)` with `s = a ++ '@' :: r`
and no `'@'` in `a`, or `none` when there is no `'@'`. -/
def splitAtSign : List Char → Option (List Char × List Char)
  | [] => none
  | c :: cs =>
    if c = '@' then some ([], cs)
    else (splitAtSign cs).map fun p => (c :: p.1, p.2)

/-- Is there a `'.'` in the list followed by at least one character? -/
def dotThenMore : List Char → Bool
  | [] => false
  | c :: cs => (c = '.' && !cs.isEmpty) || dotThenMore cs

/-- Executable decision of `emailRegex.test(email)`. -/
def emailRegexTest (s : List Char) : Bool :=
  match splitAtSign s with
  | none => false
  | some (a, r) =>
    !a.isEmpty && a.all (fun c => !jsSpace c) &&
    match r with
    | [] => false
    | _ :: r2 => r.all isEmailChar && dotThenMore r2

/-- Outcome of the blur handler on an email field: either the invalid
state is cleared, or the field is marked invalid with a feedback
message. -/
inductive FieldMark where
  | valid
  | invalid (message : String)
  deriving DecidableEq, Repr

/-- The blur handler on `input[type="email"]`. -/
def emailBlur (email : List Char) : FieldMark :=
  if !email.isEmpty && !emailRegexTest email then
    FieldMark.invalid "Please enter a valid email address."
  else
    FieldMark.valid

/-! ## 4.1 Password strength (`#password` keyup handler)

```js
let strength = 0;
if (password.length >= 8) strength++;
if (/[A-Z]/.test(password)) strength++;
if (/[0-9]/.test(password)) strength++;
if (/[^A-Za-z0-9]/.test(password)) strength++;
const strengthText = ['Very Weak', 'Weak', 'Fair', 'Good', 'Strong'][strength];
const strengthColor = ['danger', 'warning', 'info', 'primary', 'success'][strength];
$('#password-strength').text(strengthText).removeClass().addClass('badge bg-' + strengthColor);
```
-/

/-- `/[A-Z]/` on one character. -/
def isUpperAZ (c : Char) : Bool := 'A' ≤ c && c ≤ 'Z'

/-- `/[0-9]/` on one character. -/
def isDigit09 (c : Char) : Bool := '0' ≤ c && c ≤ '9'

/-- `/[^A-Za-z0-9]/` on one character. -/
def isNonAlnum (c : Char) : Bool :=
  !(('A' ≤ c && c ≤ 'Z') || ('a' ≤ c && c ≤ 'z') || ('0' ≤ c && c ≤ '9'))

/-- The four boolean criteria, in source order. -/
def lengthCheck (p : List Char) : Bool := 8 ≤ p.length
def upperCheck (p : List Char) : Bool := p.any isUpperAZ
def digitCheck (p : List Char) : Bool := p.any isDigit09
def specialCheck (p : List Char) : Bool := p.any isNonAlnum

/-- The accumulated `strength` counter. -/
def pwdStrength (p : List Char) : Nat :=
  (if lengthCheck p then 1 else 0) + (if upperCheck p then 1 else 0) +
  (if digitCheck p then 1 else 0) + (if specialCheck p then 1 else 0)

/-- `['Very Weak', 'Weak', 'Fair', 'Good', 'Strong']`. -/
def strengthTexts : List String := ["Very Weak", "Weak", "Fair", "Good", "Strong"]

/-- `['danger', 'warning', 'info', 'primary', 'success']`. -/
def strengthColors : List String := ["danger", "warning", "info", "primary", "success"]

/-- The keyup handler's badge update: the text written and the class set
(`'badge bg-' + color`).  Indexing past the array end would be JavaScript
`undefined`. -/
def passwordKeyup (p : List Char) : String × String :=
  (strengthTexts.getD (pwdStrength p) "undefined",
   "badge bg-" ++ strengthColors.getD (pwdStrength p) "undefined")

/-! ## 4.4 Skill tag editor (`addSkillTag` / `removeSkillTag`)

```js
function addSkillTag(skill) {
  const tag = `<span class="skill-tag">${skill} <button ...></button></span>`;
  $('#skillTags').append(tag);
  const skills = [];
  $('#skillTags .skill-tag').each(function() {
    skills.push($(this).text().trim().replace('×', ''));
  });
  $('#skills').val(skills.join(','));
}
```
`removeSkillTag` removes the clicked tag's parent span and recomputes the
same mirror.  The DOM text of a chip built for `skill` is `skill ++ " "`
(the close button contributes no text). -/

/-- The DOM state touched by the tag editor: the text contents of the
`.skill-tag` chips inside `#skillTags`, in order, and the value of the
hidden `#skills` field. -/
structure TagState where
  tags : List (List Char)
  hidden : List Char
  deriving DecidableEq, Repr

/-- The page's initial tag state: no chips, empty hidden field. -/
def tagInit : TagState := ⟨[], []⟩

/-- The recomputation both functions share: read every chip text, trim
it, strip a `'×'`, and comma-join. -/
def skillsMirror (tags : List (List Char)) : List Char :=
  List.intercalate [','] (tags.map fun t => removeFirstChar '×' (jsTrim t))

/-- `addSkillTag(skill)`: append a chip whose DOM text is
`skill ++ " "`, then recompute the hidden field from the DOM. -/
def addSkillTag (skill : List Char) (st : TagState) : TagState :=
  let tags := st.tags ++ [skill ++ [' ']]
  ⟨tags, skillsMirror tags⟩

/-- `removeSkillTag(button)` where the button sits in the chip at the
given index: remove that chip, then recompute the hidden field from the
DOM. -/
def removeSkillTag (i : Nat) (st : TagState) : TagState :=
  let tags := st.tags.eraseIdx i
  ⟨tags, skillsMirror tags⟩

/-- A user action on the tag editor. -/
inductive TagOp where
  | add (skill : List Char)
  | remove (i : Nat)
  deriving DecidableEq, Repr

/-- Apply one tag-editor action. -/
def applyTagOp (st : TagState) (op : TagOp) : TagState :=
  match op with
  | TagOp.add s => addSkillTag s st
  | TagOp.remove i => removeSkillTag i st

/-- Run a sequence of tag-editor actions. -/
def runTagOps (st : TagState) (ops : List TagOp) : TagState :=
  ops.foldl applyTagOp st

/-! ## 4.5 Generic AJAX form submission (`.ajax-form` submit handler)

```js
success: function(response) {
  if (response.success) { showNotification('Success!', response.message, 'success'); }
  else { showNotification('Error!', response.message, 'error'); }
},
error: function() {
  showNotification('Error!', 'Something went wrong. Please try again.', 'error');
}
```
-/

/-- Outcome of the `$.ajax` POST: either the server answered (with a
success flag and a message), or the request failed at transport level
(the `error:` callback fires). -/
inductive AjaxOutcome where
  | response (success : Bool) (message : String)
  | transportFailure
  deriving DecidableEq, Repr

/-- Effects of the `.ajax-form` submit handler once its request
settles. -/
def ajaxFormComplete (o : AjaxOutcome) : List Effect :=
  match o with
  | AjaxOutcome.response true m => [Effect.banner "Success!" m "success"]
  | AjaxOutcome.response false m => [Effect.banner "Error!" m "error"]
  | AjaxOutcome.transportFailure =>
      [Effect.banner "Error!" "Something went wrong. Please try again." "error"]

/-! ## 4.6 Resume parsing call (`parseResume`)

```js
success: function(data) {
  if (data.success) {
    if (data.name) $('#fullName').val(data.name);
    if (data.email) $('#email').val(data.email);
    if (data.phone) $('#phone').val(data.phone);
    if (data.skills) { data.skills.forEach(skill => addSkillTag(skill)); }
    showNotification('Success!', 'Resume parsed successfully.', 'success');
  }
},
error: function() { showNotification('Error!', 'Failed to parse resume.', 'error'); }
```
Note the `success:` callback has no `else` branch. -/

/-- The JSON body of a parse-resume response.  Absent fields are `none`;
a present-but-empty string is JavaScript-falsy, which the handler also
skips. -/
structure ParseData where
  success : Bool
  name : Option String
  email : Option String
  phone : Option String
  skills : Option (List String)
  deriving DecidableEq, Repr

/-- Outcome of the parse-resume POST. -/
inductive ParseOutcome where
  | response (d : ParseData)
  | transportFailure
  deriving DecidableEq, Repr

/-- `if (data.f) ...`: act only when the optional string field is present
and non-empty (JavaScript truthiness). -/
def fillField (target : String) (v : Option String) : List Effect :=
  match v with
  | none => []
  | some s => if s = "" then [] else [Effect.setVal target s]

/-- Effects of `parseResume`'s callbacks once the POST settles. -/
def parseResumeComplete (o : ParseOutcome) : List Effect :=
  match o with
  | ParseOutcome.response d =>
    if d.success then
      fillField "fullName" d.name ++ fillField "email" d.email ++
      fillField "phone" d.phone ++
      (match d.skills with
       | none => []
       | some l => l.map Effect.addTag) ++
      [Effect.banner "Success!" "Resume parsed successfully." "success"]
    else []
  | ParseOutcome.transportFailure =>
      [Effect.banner "Error!" "Failed to parse resume." "error"]

/-! ## 4.2 Job search autocomplete (`#jobSearch` keyup handler)

```js
const query = $(this).val();
if (query.length >= 2) {
  $.get('/api/jobs/autocomplete', { q: query }, function(data) {
    // Implement autocomplete dropdown
  });
}
```
`$.get` is called with a success callback only; a transport failure runs
no code at all, and the success callback is an empty placeholder. -/

/-- The keyup handler on the search field. -/
def jobSearchKeyup (query : List Char) : List Effect :=
  if 2 ≤ query.length then [Effect.requestAutocomplete] else []

/-- Outcome of the autocomplete GET (the response body is unused). -/
inductive AutocompleteOutcome where
  | response
  | transportFailure
  deriving DecidableEq, Repr

/-- Effects once the autocomplete GET settles: the success callback is an
empty placeholder, and `$.get` was given no failure callback. -/
def autocompleteComplete (_ : AutocompleteOutcome) : List Effect := []

/-! ## 4.7 Pagination (`#loadMoreJobs` click handler)

```js
let currentPage = 1;
$('#loadMoreJobs').on('click', function() {
  currentPage++;
  $button.prop('disabled', true).html('<span ...></span> Loading...');
  $.get('/api/jobs', { page: currentPage }, function(data) {
    if (data.jobs.length > 0) { $button.prop('disabled', false).text('Load More'); }
    else { $button.remove(); }
  });
});
```
`$.get` again has no failure callback. -/

/-- The visible state of the load-more control. -/
inductive ControlState where
  | enabled (label : String)
  | disabledLoading
  | removed
  deriving DecidableEq, Repr

/-- The handler's closure state: the `currentPage` counter plus the
control. -/
structure LoadMoreState where
  page : Nat
  control : ControlState
  deriving DecidableEq, Repr

/-- State when the page loads: counter 1, button present. -/
def loadMoreInit : LoadMoreState := ⟨1, ControlState.enabled "Load More"⟩

/-- Outcome of the jobs GET: a response carrying the `jobs` array, or a
transport failure (which runs no callback). -/
inductive JobsOutcome where
  | response (jobs : List String)
  | transportFailure
  deriving DecidableEq, Repr

/-- Effects once the jobs GET settles. -/
def loadMoreComplete (o : JobsOutcome) : List Effect :=
  match o with
  | JobsOutcome.response jobs =>
    if 0 < jobs.length then [Effect.btnEnable, Effect.btnSetText "Load More"]
    else [Effect.btnRemove]
  | JobsOutcome.transportFailure => []

/-- The control state once the jobs GET settles (a transport failure
leaves the button disabled with its spinner). -/
def loadMoreControlAfter (o : JobsOutcome) : ControlState :=
  match o with
  | JobsOutcome.response jobs =>
    if 0 < jobs.length then ControlState.enabled "Load More"
    else ControlState.removed
  | JobsOutcome.transportFailure => ControlState.disabledLoading

/-- One click on `#loadMoreJobs` together with the settling of the GET it
issues: the new closure state and the effects, in order. -/
def loadMoreClick (st : LoadMoreState) (o : JobsOutcome) :
    LoadMoreState × List Effect :=
  let page' := st.page + 1
  (⟨page', loadMoreControlAfter o⟩,
   [Effect.btnDisable, Effect.btnShowLoading, Effect.requestJobs page'] ++
     loadMoreComplete o)

/-- Run a sequence of clicks, each one's GET settling with the listed
outcome, and keep only the closure state. -/
def runLoadMore (st : LoadMoreState) (os : List JobsOutcome) : LoadMoreState :=
  os.foldl (fun s o => (loadMoreClick s o).1) st

/-! ## 4.8 Notification polling (`checkNotifications`)

```js
$.get('/api/notifications/unread', function(data) {
  if (data.count > 0) {
    $('#notificationBadge').text(data.count).show();
    if (Notification.permission === 'granted') {
      new Notification('New Notification', { body: `You have ${data.count} new notifications`, ... });
    }
  }
});
```
No failure callback either. -/

/-- Outcome of the unread-count GET. -/
inductive UnreadOutcome where
  | response (count : Nat)
  | transportFailure
  deriving DecidableEq, Repr

/-- Effects once the unread-count GET settles, given whether desktop
notification permission is granted. -/
def checkNotificationsComplete (granted : Bool) (o : UnreadOutcome) :
    List Effect :=
  match o with
  | UnreadOutcome.response count =>
    if 0 < count then
      [Effect.badgeShow count] ++
      (if granted then
        [Effect.desktopNotify ("You have " ++ toString count ++ " new notifications")]
       else [])
    else []
  | UnreadOutcome.transportFailure => []

/-! ## The five remote calls, for the uniform-error-handling claim -/

/-- Every remote HTTP call the script makes. -/
inductive RemoteCall where
  | ajaxForm
  | parseResumeCall
  | autocompleteCall
  | jobsPageCall
  | unreadCountCall
  deriving DecidableEq, Repr

/-- What each call's handlers do when the request fails at transport
level. -/
def transportFailureEffects : RemoteCall → List Effect
  | RemoteCall.ajaxForm => ajaxFormComplete AjaxOutcome.transportFailure
  | RemoteCall.parseResumeCall => parseResumeComplete ParseOutcome.transportFailure
  | RemoteCall.autocompleteCall => autocompleteComplete AutocompleteOutcome.transportFailure
  | RemoteCall.jobsPageCall => loadMoreComplete JobsOutcome.transportFailure
  | RemoteCall.unreadCountCall =>
      checkNotificationsComplete true UnreadOutcome.transportFailure

/-! ## 4.9 Relative time (`daysAgo`)

```js
const diffTime = Math.abs(now - date);
const diffDays = Math.ceil(diffTime / (1000 * 60 * 60 * 24));
if (diffDays === 0) return 'Today';
if (diffDays === 1) return 'Yesterday';
if (diffDays < 7) return `${diffDays} days ago`;
if (diffDays < 30) return `${Math.floor(diffDays / 7)} weeks ago`;
if (diffDays < 365) return `${Math.floor(diffDays / 30)} months ago`;
return `${Math.floor(diffDays / 365)} years ago`;
```
-/

/-- Milliseconds in a day, `1000 * 60 * 60 * 24`. -/
def msPerDay : Nat := 86400000

/-- The branch cascade of `daysAgo` on the computed `diffDays`. -/
def dayLabel (diffDays : Nat) : String :=
  if diffDays = 0 then "Today"
  else if diffDays = 1 then "Yesterday"
  else if diffDays < 7 then toString diffDays ++ " days ago"
  else if diffDays < 30 then toString (diffDays / 7) ++ " weeks ago"
  else if diffDays < 365 then toString (diffDays / 30) ++ " months ago"
  else toString (diffDays / 365) ++ " years ago"

/-- `Math.ceil (ms / msPerDay)` on a nonnegative millisecond count. -/
def ceilDays (ms : Nat) : Nat := (ms + (msPerDay - 1)) / msPerDay

/-- `daysAgo`, on the two timestamps (milliseconds since the epoch) that
`new Date(dateString)` and `new Date()` denote: absolute difference,
ceiling division into days, then the label cascade. -/
def daysAgo (now date : Int) : String :=
  dayLabel (ceilDays (now - date).natAbs)

/-! ## Supporting lemmas -/

/-- The handler's size test, solved for the byte count: the rounded
comparison `toFixed(2) > 5` accepts everything below 5248123 bytes
(≈ 5.005 MB), not everything below 5 MB. -/
theorem resumeRejected_iff (size : Nat) :
    resumeRejected size = true ↔ 5248123 ≤ size := by
  simp only [resumeRejected, toFixedHundredths, decide_eq_true_eq]
  omega

/-! ## C1: resume upload size gate -/

/-- C1 (counterexample): a file of 5245000 bytes exceeds 5 MB
(5·2²⁰ = 5242880 bytes), yet the handler does not reject it — `toFixed(2)`
rounds `5.00202…` down to `"5.00"`, the comparison `"5.00" > 5` fails, and
the parsing call is made.  This refutes the claimed "rejects iff the size
exceeds 5 MB". -/
theorem c1_counterexample :
    5 * 1048576 < 5245000 ∧
    resumeUpload "resume.pdf" 5245000 =
      [Effect.setText "resumeFileName" "resume.pdf (5.00 MB)",
       Effect.callParseResume] := by
  constructor
  · decide
  · decide

/-- C1 (amended): the handler rejects (blocking alert, input cleared, no
parsing call) iff the size in MB rounded to two decimals by `toFixed(2)`
exceeds 5 — equivalently iff the file is at least 5248123 bytes
(≈ 5.005 MB); otherwise it displays the filename with the rounded size
and invokes the parsing call.  A 5.01 MB file (5253366 bytes) is rejected
and a 4.99 MB file (5232394 bytes) proceeds to the parsing call. -/
theorem c1_resume_upload (name : String) (size : Nat) :
    (5248123 ≤ size →
      resumeUpload name size =
        [Effect.alertBox "File size should be less than 5MB", Effect.clearInput]) ∧
    (size < 5248123 →
      resumeUpload name size =
        [Effect.setText "resumeFileName"
            (name ++ " (" ++ twoDecString (toFixedHundredths size) ++ " MB)"),
         Effect.callParseResume]) ∧
    resumeUpload "cv.pdf" 5253366 =
      [Effect.alertBox "File size should be less than 5MB", Effect.clearInput] ∧
    resumeUpload "cv.pdf" 5232394 =
      [Effect.setText "resumeFileName" "cv.pdf (4.99 MB)", Effect.callParseResume] := by
  refine ⟨?_, ?_, by decide, by decide⟩
  · intro h
    have hr : resumeRejected size = true := (resumeRejected_iff size).mpr h
    simp [resumeUpload, hr]
  · intro h
    have hr : resumeRejected size = false := by
      rcases hb : resumeRejected size with _ | _
      · rfl
      · exact absurd ((resumeRejected_iff size).mp hb) (by omega)
    simp [resumeUpload, hr]

/-- C1 (witness). -/
theorem c1_resume_upload_witness :
    5248123 ≤ 6000000 ∧
    resumeUpload "big.pdf" 6000000 =
      [Effect.alertBox "File size should be less than 5MB", Effect.clearInput] :=
  ⟨by decide, (c1_resume_upload "big.pdf" 6000000).1 (by decide)⟩

/-! ## C9: ajax-form outcome handling -/

/-- C9: for every ajax-form submission outcome the handler shows exactly
one notification — a success banner with the server message on
`success: true`, an error banner with the server message on
`success: false`, and the fixed generic error banner on transport
failure. -/
theorem c9_ajax_form (m : String) :
    ajaxFormComplete (AjaxOutcome.response true m) =
      [Effect.banner "Success!" m "success"] ∧
    ajaxFormComplete (AjaxOutcome.response false m) =
      [Effect.banner "Error!" m "error"] ∧
    ajaxFormComplete AjaxOutcome.transportFailure =
      [Effect.banner "Error!" "Something went wrong. Please try again." "error"] ∧
    (∀ o : AjaxOutcome, (bannersOf (ajaxFormComplete o)).length = 1) := by
  refine ⟨rfl, rfl, rfl, ?_⟩
  intro o
  rcases o with ⟨success, msg⟩ | _
  · cases success <;> rfl
  · rfl

/-! ## C2: parse-resume failure handling -/

/-- C2 (counterexample): a parse-resume response whose success flag is
false is a failure outcome, yet the handler shows no notification at all
— the `success:` callback has no `else` branch, so nothing runs.  This
refutes the claimed "every failure shows the fixed generic error". -/
theorem c2_counterexample :
    parseResumeComplete
        (ParseOutcome.response ⟨false, none, none, none, none⟩) = [] := by
  decide

/-- C2 (amended): only a transport-level AJAX rejection makes
`parseResume` show the fixed generic error notification
('Failed to parse resume.'); a response whose success flag is false
produces no notification and no effect at all. -/
theorem c2_parse_failure (name email phone : Option String)
    (skills : Option (List String)) :
    parseResumeComplete ParseOutcome.transportFailure =
      [Effect.banner "Error!" "Failed to parse resume." "error"] ∧
    parseResumeComplete
        (ParseOutcome.response ⟨false, name, email, phone, skills⟩) = [] := by
  exact ⟨rfl, rfl⟩

/-! ## C3: transport-failure handling across all remote calls -/

/-- C3 (counterexample): the jobs-page GET issued by the load-more
handler has no failure callback, so on a transport failure no banner (and
no effect at all) is produced — not every remote call reports transport
failures through the notification banner. -/
theorem c3_counterexample :
    bannersOf (transportFailureEffects RemoteCall.jobsPageCall) = [] := by
  decide

/-- C3 (amended): only the two POST calls (ajax-form submission and
resume parsing) show an error banner on a transport failure; the three
GET calls (autocomplete, jobs page, unread count) were given no failure
callback and do nothing at all when the request fails. -/
theorem c3_transport_failures :
    bannersOf (transportFailureEffects RemoteCall.ajaxForm) =
      [Effect.banner "Error!" "Something went wrong. Please try again." "error"] ∧
    bannersOf (transportFailureEffects RemoteCall.parseResumeCall) =
      [Effect.banner "Error!" "Failed to parse resume." "error"] ∧
    transportFailureEffects RemoteCall.autocompleteCall = [] ∧
    transportFailureEffects RemoteCall.jobsPageCall = [] ∧
    transportFailureEffects RemoteCall.unreadCountCall = [] := by
  exact ⟨rfl, rfl, rfl, rfl, rfl⟩

/-! ## C4: daysAgo bucket structure -/

/-- C4: with `diffDays` the ceiling of elapsed whole days (0 only for an
exactly zero elapsed time), `daysAgo`'s cascade maps 0 to 'Today', 1 to
'Yesterday', 2–6 to '<n> days ago', 7–29 to '<n/7> weeks ago', 30–364 to
'<n/30> months ago' and ≥365 to '<n/365> years ago'; the six example
durations from the spec land on the stated labels. -/
theorem c4_days_ago (d : Nat) :
    ((d = 0 → dayLabel d = "Today") ∧
     (d = 1 → dayLabel d = "Yesterday") ∧
     (2 ≤ d → d ≤ 6 → dayLabel d = toString d ++ " days ago") ∧
     (7 ≤ d → d ≤ 29 → dayLabel d = toString (d / 7) ++ " weeks ago") ∧
     (30 ≤ d → d ≤ 364 → dayLabel d = toString (d / 30) ++ " months ago") ∧
     (365 ≤ d → dayLabel d = toString (d / 365) ++ " years ago")) ∧
    (∀ ms : Nat, msPerDay * d < ms → ms ≤ msPerDay * (d + 1) →
      ceilDays ms = d + 1) ∧
    ceilDays 0 = 0 ∧
    dayLabel 0 = "Today" ∧ dayLabel 1 = "Yesterday" ∧
    dayLabel 5 = "5 days ago" ∧ dayLabel 10 = "1 weeks ago" ∧
    dayLabel 40 = "1 months ago" ∧ dayLabel 400 = "1 years ago" := by
  refine ⟨⟨?_, ?_, ?_, ?_, ?_, ?_⟩, ?_, by decide, by decide, by decide,
    by decide, by decide, by decide, by decide⟩
  · intro h; subst h; rfl
  · intro h; subst h; rfl
  · intro h1 h2
    simp only [dayLabel]
    rw [if_neg (by omega), if_neg (by omega), if_pos (by omega)]
  · intro h1 h2
    simp only [dayLabel]
    rw [if_neg (by omega), if_neg (by omega), if_neg (by omega),
      if_pos (by omega)]
  · intro h1 h2
    simp only [dayLabel]
    rw [if_neg (by omega), if_neg (by omega), if_neg (by omega),
      if_neg (by omega), if_pos (by omega)]
  · intro h1
    simp only [dayLabel]
    rw [if_neg (by omega), if_neg (by omega), if_neg (by omega),
      if_neg (by omega), if_neg (by omega)]
  · intro ms h1 h2
    simp only [ceilDays, msPerDay] at *
    omega

/-- C4 (witness). -/
theorem c4_days_ago_witness :
    dayLabel 10 = toString (10 / 7) ++ " weeks ago" ∧ ceilDays 5 = 0 + 1 :=
  ⟨(c4_days_ago 10).1.2.2.2.1 (by decide) (by decide),
   (c4_days_ago 0).2.1 5 (by decide) (by decide)⟩

/-! ## C10: daysAgo symmetry in time direction -/

/-- C10: `daysAgo` takes the absolute value of the millisecond
difference, so any pair of timestamps yields the same label as the
reflected pair — a date five days in the future is rendered
'5 days ago' just like one five days in the past. -/
theorem c10_days_ago_symmetric :
    (∀ now date : Int, daysAgo now date = daysAgo date now) ∧
    daysAgo 0 (5 * 86400000) = "5 days ago" ∧
    daysAgo (5 * 86400000) 0 = "5 days ago" := by
  refine ⟨?_, by decide, by decide⟩
  intro now date
  simp only [daysAgo]
  rw [show now - date = -(date - now) by ring, Int.natAbs_neg]

/-! ## C6: password strength score -/

/-- An if-then-else indicator is monotone in its condition. -/
theorem indicator_le {a b : Bool} (h : a = true → b = true) :
    (if a then 1 else 0 : Nat) ≤ (if b then 1 else 0) := by
  cases a
  · simp
  · simp [h rfl]

/-- C6: the keyup handler's score is the sum of the four boolean criteria
(length ≥ 8, uppercase, digit, non-alphanumeric), is bounded by 4 and
monotone in the set of satisfied criteria, and the badge text and class
come from the two five-entry arrays indexed by the score; the five spec
examples produce exactly the stated label/color pairs. -/
theorem c6_password_strength (p q : List Char) :
    ((lengthCheck p = true → lengthCheck q = true) →
     (upperCheck p = true → upperCheck q = true) →
     (digitCheck p = true → digitCheck q = true) →
     (specialCheck p = true → specialCheck q = true) →
     pwdStrength p ≤ pwdStrength q) ∧
    pwdStrength p ≤ 4 ∧
    passwordKeyup ("a".toList) = ("Very Weak", "badge bg-danger") ∧
    passwordKeyup ("aaaaaaaa".toList) = ("Weak", "badge bg-warning") ∧
    passwordKeyup ("Aaaaaaaa".toList) = ("Fair", "badge bg-info") ∧
    passwordKeyup ("Aaaaaaa1".toList) = ("Good", "badge bg-primary") ∧
    passwordKeyup ("Aaaaaaa1!".toList) = ("Strong", "badge bg-success") := by
  refine ⟨?_, ?_, by decide, by decide, by decide, by decide, by decide⟩
  · intro h1 h2 h3 h4
    simp only [pwdStrength]
    exact Nat.add_le_add
      (Nat.add_le_add (Nat.add_le_add (indicator_le h1) (indicator_le h2))
        (indicator_le h3))
      (indicator_le h4)
  · simp only [pwdStrength]
    split <;> split <;> split <;> split <;> omega

/-- C6 (witness). -/
theorem c6_password_strength_witness :
    pwdStrength ("a".toList) ≤ pwdStrength ("Aaaaaaa1!".toList) :=
  (c6_password_strength ("a".toList) ("Aaaaaaa1!".toList)).1
    (by decide) (by decide) (by decide) (by decide)

/-! ## C5: skill-tag mirror invariant -/

/-- The tag-editor invariant: the hidden field is the recomputed mirror
of the visible chips. -/
def TagInv (st : TagState) : Prop :=
  st.hidden = skillsMirror st.tags

/-- Both editor actions restore the invariant, whatever the prior
state — each one recomputes the hidden field from the DOM. -/
theorem tagInv_applyTagOp (st : TagState) (op : TagOp) :
    TagInv (applyTagOp st op) := by
  cases op <;> rfl

/-- The invariant is preserved by any sequence of editor actions. -/
theorem tagInv_runTagOps (ops : List TagOp) (st : TagState)
    (h : TagInv st) : TagInv (runTagOps st ops) := by
  induction ops generalizing st with
  | nil => exact h
  | cons op rest ih => exact ih (applyTagOp st op) (tagInv_applyTagOp st op)

/-- C5: after every `addSkillTag` and every `removeSkillTag` the hidden
skills field equals the comma-join of the visible chip texts, each
trimmed and with a '×' stripped; hence the invariant holds along every
action sequence from the initial state, and adding 'Go' and 'Rust' then
removing the first chip leaves the hidden field at 'Rust'. -/
theorem c5_skills_mirror :
    (∀ (st : TagState) (op : TagOp),
      (applyTagOp st op).hidden = skillsMirror (applyTagOp st op).tags) ∧
    (∀ ops : List TagOp,
      (runTagOps tagInit ops).hidden = skillsMirror (runTagOps tagInit ops).tags) ∧
    (runTagOps tagInit
        [TagOp.add ("Go".toList), TagOp.add ("Rust".toList),
         TagOp.remove 0]).hidden = "Rust".toList := by
  refine ⟨tagInv_applyTagOp, ?_, by decide⟩
  intro ops
  exact tagInv_runTagOps ops tagInit rfl

/-! ## C8: load-more pagination -/

/-- Every click adds one to the page counter, whatever the outcome. -/
theorem runLoadMore_page (os : List JobsOutcome) (st : LoadMoreState) :
    (runLoadMore st os).page = st.page + os.length := by
  induction os generalizing st with
  | nil => rfl
  | cons o rest ih =>
    show (runLoadMore (loadMoreClick st o).1 rest).page = st.page + (rest.length + 1)
    rw [ih]
    show st.page + 1 + rest.length = st.page + (rest.length + 1)
    omega

/-- C8: the page counter starts at 1 and each click increments it,
disables the control with the loading indicator and requests the new
page number — so after n clicks the counter is 1 + n and the nth click
requested page n + 1; a response with at least one job re-enables the
control with label 'Load More', an empty jobs array removes it, and on
the very first click an empty response requests page 2 and removes the
control. -/
theorem c8_load_more :
    loadMoreInit.page = 1 ∧
    (∀ (st : LoadMoreState) (o : JobsOutcome),
      (loadMoreClick st o).2 =
        [Effect.btnDisable, Effect.btnShowLoading,
         Effect.requestJobs (st.page + 1)] ++ loadMoreComplete o ∧
      (loadMoreClick st o).1.page = st.page + 1) ∧
    (∀ (os : List JobsOutcome) (st : LoadMoreState),
      (runLoadMore st os).page = st.page + os.length) ∧
    (∀ jobs : List String, jobs ≠ [] →
      loadMoreComplete (JobsOutcome.response jobs) =
        [Effect.btnEnable, Effect.btnSetText "Load More"] ∧
      loadMoreControlAfter (JobsOutcome.response jobs) =
        ControlState.enabled "Load More") ∧
    loadMoreComplete (JobsOutcome.response []) = [Effect.btnRemove] ∧
    (loadMoreClick loadMoreInit (JobsOutcome.response [])).1 =
      ⟨2, ControlState.removed⟩ ∧
    (loadMoreClick loadMoreInit (JobsOutcome.response [])).2 =
      [Effect.btnDisable, Effect.btnShowLoading, Effect.requestJobs 2,
       Effect.btnRemove] := by
  refine ⟨rfl, fun st o => ⟨rfl, rfl⟩, runLoadMore_page, ?_, rfl, by decide, by decide⟩
  intro jobs hne
  have hlen : 0 < jobs.length := List.length_pos.mpr hne
  constructor
  · simp [loadMoreComplete, hlen]
  · simp [loadMoreControlAfter, hlen]

/-- C8 (witness). -/
theorem c8_load_more_witness :
    loadMoreComplete (JobsOutcome.response ["Engineer"]) =
      [Effect.btnEnable, Effect.btnSetText "Load More"] ∧
    loadMoreControlAfter (JobsOutcome.response ["Engineer"]) =
      ControlState.enabled "Load More" :=
  c8_load_more.2.2.2.1 ["Engineer"] (by decide)

/-! ## C7: email blur validation -/

/-- Soundness of the first-`'@'` splitter. -/
theorem splitAtSign_sound (s : List Char) :
    ∀ a r, splitAtSign s = some (a, r) → s = a ++ '@' :: r ∧ '@' ∉ a := by
  induction s with
  | nil => intro a r h; simp [splitAtSign] at h
  | cons c cs ih =>
    intro a r h
    by_cases hc : c = '@'
    · subst hc
      simp [splitAtSign] at h
      obtain ⟨ha, hr⟩ := h
      subst ha; subst hr
      exact ⟨rfl, by simp⟩
    · simp only [splitAtSign, if_neg hc, Option.map_eq_some'] at h
      obtain ⟨⟨a1, r1⟩, h1, h2⟩ := h
      have ha : a = c :: a1 := by
        simpa using (congrArg Prod.fst h2).symm
      have hr : r = r1 := by
        simpa using (congrArg Prod.snd h2).symm
      obtain ⟨hcs, hnot⟩ := ih a1 r1 h1
      constructor
      · rw [ha, hr, hcs]
        rfl
      · rw [ha]
        intro hm
        rcases List.mem_cons.mp hm with h | h
        · exact hc h.symm
        · exact hnot h

/-- Completeness of the first-`'@'` splitter. -/
theorem splitAtSign_complete : ∀ (a r : List Char), '@' ∉ a →
    splitAtSign (a ++ '@' :: r) = some (a, r)
  | [], _, _ => by simp [splitAtSign]
  | c :: a', r, h => by
    have hc : ¬ c = '@' := by
      intro hh
      exact h (by simp [hh])
    have ha' : '@' ∉ a' := by
      intro hm
      exact h (List.mem_cons_of_mem _ hm)
    simp [splitAtSign, hc, splitAtSign_complete a' r ha']

/-- `dotThenMore` finds exactly the `'.'`-with-a-successor splits. -/
theorem dotThenMore_iff (l : List Char) :
    dotThenMore l = true ↔ ∃ b c, l = b ++ '.' :: c ∧ c ≠ [] := by
  induction l with
  | nil =>
    constructor
    · intro h; simp [dotThenMore] at h
    · rintro ⟨b, c, h, -⟩
      cases b <;> simp at h
  | cons x xs ih =>
    constructor
    · intro h
      simp only [dotThenMore, Bool.or_eq_true, Bool.and_eq_true,
        Bool.not_eq_true', decide_eq_true_eq] at h
      rcases h with ⟨hx, hne⟩ | h
      · subst hx
        refine ⟨[], xs, rfl, ?_⟩
        intro he
        subst he
        simp at hne
      · obtain ⟨b, c, hl, hc⟩ := ih.mp h
        subst hl
        exact ⟨x :: b, c, rfl, hc⟩
    · rintro ⟨b, c, hl, hc⟩
      cases b with
      | nil =>
        simp only [List.nil_append] at hl
        injection hl with hx hxs
        subst hx
        subst hxs
        have hce : xs.isEmpty = false := by
          cases xs
          · exact absurd rfl hc
          · rfl
        simp [dotThenMore, hce]
      | cons y b' =>
        simp only [List.cons_append] at hl
        injection hl with hxy hxs
        have hrest : dotThenMore xs = true := ih.mpr ⟨b', c, hxs, hc⟩
        simp [dotThenMore, hrest]

/-- The executable matcher decides exactly the language of
`/^[^\s@]+@[^\s@]+\.[^\s@]+$/`. -/
theorem emailRegexTest_iff (s : List Char) :
    emailRegexTest s = true ↔ EmailRe s := by
  constructor
  · intro h
    unfold emailRegexTest at h
    cases hsp : splitAtSign s with
    | none => rw [hsp] at h; simp at h
    | some p =>
      obtain ⟨a, r⟩ := p
      rw [hsp] at h
      obtain ⟨hs, hnot⟩ := splitAtSign_sound s a r hsp
      cases r with
      | nil => simp at h
      | cons x r2 =>
        simp only [Bool.and_eq_true, Bool.not_eq_true', List.all_eq_true] at h
        obtain ⟨⟨hne, hnospace⟩, hall, hdot⟩ := h
        obtain ⟨b', c, hr2, hc⟩ := (dotThenMore_iff r2).mp hdot
        subst hr2
        refine ⟨a, x :: b', c, ?_, ?_, by simp, hc, ?_, ?_, ?_⟩
        · rw [hs]; simp
        · intro hae; rw [hae] at hne; simp at hne
        · intro y hy
          have hysp := hnospace y hy
          have hyat : y ≠ '@' := fun hh => hnot (hh ▸ hy)
          simp only [isEmailChar, Bool.and_eq_true, Bool.not_eq_true',
            bne_iff_ne, ne_eq]
          exact ⟨hysp, hyat⟩
        · intro y hy
          refine hall y ?_
          rcases List.mem_cons.mp hy with h | h
          · simp [h]
          · exact List.mem_cons_of_mem _ (List.mem_append_left _ h)
        · intro y hy
          refine hall y ?_
          exact List.mem_cons_of_mem _
            (List.mem_append_right _ (List.mem_cons_of_mem _ hy))
  · rintro ⟨a, b, c, hs, ha, hb, hc, hA, hB, hC⟩
    have hnot : '@' ∉ a := by
      intro hm
      have := hA '@' hm
      simp [isEmailChar] at this
    subst hs
    unfold emailRegexTest
    rw [splitAtSign_complete a (b ++ '.' :: c) hnot]
    cases b with
    | nil => exact absurd rfl hb
    | cons y b' =>
      have hae : a.isEmpty = false := by
        cases a
        · exact absurd rfl ha
        · rfl
      simp only [List.cons_append, Bool.and_eq_true, Bool.not_eq_true',
        List.all_eq_true]
      refine ⟨⟨by simp [hae], ?_⟩, ?_, ?_⟩
      · intro y' hy'
        have := hA y' hy'
        simp only [isEmailChar, Bool.and_eq_true, Bool.not_eq_true'] at this
        exact this.1
      · intro y' hy'
        rcases List.mem_cons.mp hy' with h | h
        · exact h ▸ hB y (by simp)
        · rcases List.mem_append.mp h with h2 | h2
          · exact hB y' (List.mem_cons_of_mem _ h2)
          · rcases List.mem_cons.mp h2 with h3 | h3
            · subst h3; decide
            · exact hC y' h3
      · exact (dotThenMore_iff _).mpr ⟨b', c, rfl, hc⟩

/-- C7: on blur, any field value in the language of
`/^[^\s@]+@[^\s@]+\.[^\s@]+$/` has its invalid state cleared, any
non-empty value outside the language is marked invalid with the fixed
message, and the empty value is treated as valid; the executable test
decides exactly that language. -/
theorem c7_email_blur (s : List Char) :
    (emailRegexTest s = true ↔ EmailRe s) ∧
    (EmailRe s → emailBlur s = FieldMark.valid) ∧
    (s ≠ [] → ¬ EmailRe s →
      emailBlur s = FieldMark.invalid "Please enter a valid email address.") ∧
    (s = [] → emailBlur s = FieldMark.valid) := by
  refine ⟨emailRegexTest_iff s, ?_, ?_, ?_⟩
  · intro h
    have ht : emailRegexTest s = true := (emailRegexTest_iff s).mpr h
    simp [emailBlur, ht]
  · intro hne h
    have ht : emailRegexTest s = false := by
      rcases hb : emailRegexTest s with _ | _
      · rfl
      · exact absurd ((emailRegexTest_iff s).mp hb) h
    have hie : s.isEmpty = false := by
      cases s
      · exact absurd rfl hne
      · rfl
    simp [emailBlur, ht, hie]
  · intro h
    subst h
    rfl

/-- C7 (witness). -/
theorem c7_email_blur_witness :
    emailBlur ("a@b.c".toList) = FieldMark.valid :=
  (c7_email_blur ("a@b.c".toList)).2.1
    ⟨['a'], ['b'], ['c'], by decide, by decide, by decide, by decide,
     by decide, by decide, by decide⟩

end SmartJobPortal
